import Mathlib

set_option maxHeartbeats 1000000

/-!
Verification development for the preliminary ship-design calculator
(`ship_des_view_widget.py`).  Shallow embedding over ℝ (ℚ for the static
configuration tables); each definition is translated from the named source
function.  Floating-point arithmetic is idealised as real arithmetic.
-/

/-! ## Configuration tables (`FuelConfig`, `ShipConfig`) -/

/-- Per-fuel constants, one record per entry of `FuelConfig.DATA`. -/
structure FuelProfile where
  LHV : ℚ
  Density : ℚ
  Efficiency : ℚ
  TankFactor : ℚ
  VolFactor : ℚ
  Carbon : ℚ
  Machinery : ℚ
  IsNuclear : Bool
  deriving Repr, DecidableEq

def fuel_DirectDiesel : FuelProfile :=
  ⟨42.7, 850.0, 0.50, 1.10, 1.02, 3.206, 14.0, false⟩

def fuel_GearedDiesel : FuelProfile :=
  ⟨42.7, 850.0, 0.45, 1.10, 1.02, 3.206, 11.0, false⟩

def fuel_SteamTurbines : FuelProfile :=
  ⟨40.0, 980.0, 0.33, 1.05, 1.02, 3.114, 9.0, false⟩

def fuel_NuclearSteamTurbine : FuelProfile :=
  ⟨0.0, 0.0, 0.35, 0.0, 0.0, 0.0, 20.0, true⟩

def fuel_MethanolICE : FuelProfile :=
  ⟨19.9, 792.0, 0.45, 1.20, 1.15, 1.375, 15.0, false⟩

def fuel_HydrogenICE : FuelProfile :=
  ⟨120.0, 71.0, 0.38, 5.0, 3.0, 0.0, 13.0, false⟩

def fuel_LNGDualFuel : FuelProfile :=
  ⟨50.0, 450.0, 0.48, 1.6, 1.9, 2.75, 16.0, false⟩

def fuel_HydrogenFuelCell : FuelProfile :=
  ⟨120.0, 71.0, 0.50, 5.0, 3.0, 0.0, 18.0, false⟩

def fuel_AmmoniaCombustion : FuelProfile :=
  ⟨18.6, 682.0, 0.42, 1.4, 1.4, 0.0, 16.0, false⟩

def fuel_ElectricBattery : FuelProfile :=
  ⟨0.6, 2000.0, 0.92, 1.0, 1.0, 0.0, 3.0, false⟩

/-- The `FuelConfig.DATA` dictionary, as an association list in source order. -/
def FuelConfig.DATA : List (String × FuelProfile) :=
  [("Direct diesel", fuel_DirectDiesel),
   ("Geared diesel", fuel_GearedDiesel),
   ("Steam turbines", fuel_SteamTurbines),
   ("Nuclear Steam Turbine", fuel_NuclearSteamTurbine),
   ("Methanol (ICE)", fuel_MethanolICE),
   ("Hydrogen (ICE)", fuel_HydrogenICE),
   ("LNG (Dual Fuel)", fuel_LNGDualFuel),
   ("Hydrogen (Fuel Cell)", fuel_HydrogenFuelCell),
   ("Ammonia (Combustion)", fuel_AmmoniaCombustion),
   ("Electric (Battery)", fuel_ElectricBattery)]

/-- `FuelConfig.get`: dictionary lookup defaulting to the Direct diesel entry. -/
def FuelConfig.get (name : String) : FuelProfile :=
  (FuelConfig.DATA.lookup name).getD fuel_DirectDiesel

/-- Per-ship-type constants, one record per entry of `ShipConfig.DATA`.
(The EEDI/CII reference-line fields are carried for completeness.) -/
structure ShipProfile where
  ID : ℕ
  Steel_K1 : ℚ
  Outfit_Intercept : ℚ
  Outfit_Slope : ℚ
  Stability_Factor : ℚ
  Design_Type : String
  Profile_Factor : ℚ
  Cargo_Density : ℚ
  EEDI_a : ℚ
  EEDI_c : ℚ
  EEDI_Enabled : Bool
  EEDI_Type : String
  CII_a : ℚ
  CII_c : ℚ
  CII_Type : String
  deriving Repr, DecidableEq

def ship_Tanker : ShipProfile :=
  ⟨1, 0.032, 0.37, 1765.0, 0.63, "Deadweight", 1.10, 0.85,
   1218.80, 0.488, true, "DWT", 5247.0, 0.610, "DWT"⟩

def ship_BulkCarrier : ShipProfile :=
  ⟨2, 0.032, 0.32, 1765.0, 0.57, "Deadweight", 1.15, 1.50,
   961.79, 0.477, true, "DWT", 4745.0, 0.622, "DWT"⟩

def ship_CargoVessel : ShipProfile :=
  ⟨3, 0.034, 0.41, 0.0, 0.62, "Deadweight", 1.30, 0.60,
   107.48, 0.216, true, "DWT", 588.0, 0.216, "DWT"⟩

def ship_ContainerShip : ShipProfile :=
  ⟨4, 0.036, 0.45, 0.0, 0.60, "Volume", 1.60, 0.0,
   174.22, 0.201, true, "DWT", 1984.0, 0.489, "DWT"⟩

def ship_CruiseShip : ShipProfile :=
  ⟨5, 0.045, 0.80, 0.0, 0.70, "Volume", 2.40, 0.0,
   170.84, 0.214, true, "GT", 930.0, 0.383, "GT"⟩

def ship_Superyacht : ShipProfile :=
  ⟨6, 0.042, 0.90, 0.0, 0.68, "Volume", 2.20, 0.0,
   170.84, 0.214, true, "GT", 930.0, 0.383, "GT"⟩

/-- The `ShipConfig.DATA` dictionary, as an association list in source order. -/
def ShipConfig.DATA : List (String × ShipProfile) :=
  [("Tanker", ship_Tanker),
   ("Bulk carrier", ship_BulkCarrier),
   ("Cargo vessel", ship_CargoVessel),
   ("Container Ship", ship_ContainerShip),
   ("Cruise Ship", ship_CruiseShip),
   ("Superyacht", ship_Superyacht)]

/-- `ShipConfig.get`: dictionary lookup defaulting to the Tanker entry. -/
def ShipConfig.get (name : String) : ShipProfile :=
  (ShipConfig.DATA.lookup name).getD ship_Tanker

/-! ## Error-code constants (`ShipDesViewWidget.__init__`, lines 433-437) -/

def NOT_CONVERGE : ℕ := 2
def SPEED_LOW : ℕ := 3
def SPEED_HIGH : ℕ := 5
def PITCH_LOW : ℕ := 7
def PITCH_HIGH : ℕ := 11

/-! ## Mass estimator (`_mass`, lines 2619-2747) -/

/-- The fields of the solver state read by `_mass`.  The three `aux*` fields
model the `hasattr` checks on `M_aux_mach` / `M_aux_outfit` / `W_aux_fuel`
(`none` = attribute absent). -/
structure MassInput where
  L1 : ℝ
  B : ℝ
  T : ℝ
  D : ℝ
  C : ℝ
  M : ℝ
  P1 : ℝ
  P2 : ℝ
  N1 : ℝ
  V : ℝ
  R : ℝ
  LHV : ℝ
  Ketype : ℕ
  shipName : String
  fuelName : String
  auxMach : Option ℝ
  auxOutfit : Option ℝ
  auxFuel : Option ℝ

/-- The fields of the solver state written by `_mass`.  `calculatedFuelMass`
is `none` in the nuclear branch, which leaves the attribute untouched. -/
structure MassOutput where
  M1 : ℝ
  M2 : ℝ
  M3 : ℝ
  W3 : ℝ
  W4 : ℝ
  W1 : ℝ
  W5 : ℝ
  calculatedFuelMass : Option ℝ

/-- Shallow embedding of `_mass`.  Total: the Python function always ends in
`return True`, and a negative cargo deadweight `W1` is an ordinary output. -/
noncomputable def massRun (s : MassInput) : MassOutput :=
  let E1 := s.L1 * (s.B + s.T) + 0.85 * s.L1 * (s.D - s.T) + 250
  let Tsafe := if s.T ≠ 0 then s.T else 1e-9
  let C1 := s.C + (0.8 * s.D - s.T) / (10.0 * Tsafe)
  let ship := ShipConfig.get s.shipName
  let K1 : ℝ := (ship.Steel_K1 : ℝ)
  let K2 : ℝ :=
    if (ship.Outfit_Slope : ℝ) > 0.001 then
      (ship.Outfit_Intercept : ℝ) - s.L1 / (ship.Outfit_Slope : ℝ)
    else (ship.Outfit_Intercept : ℝ)
  let M1 := K1 * E1 ^ (1.36 : ℝ) * (1.0 + 0.5 * (C1 - 0.7))
  let M2 := K2 * s.L1 * s.B
  let K3 : ℝ := if ship.ID = 1 then 0.59 else 0.56
  let fuel := FuelConfig.get s.fuelName
  let isLegacyDiesel := s.Ketype = 1 ∨ s.Ketype = 2
  let isLegacySteam := s.Ketype = 3
  let installedPowerKw := s.P2 * 0.7457
  let M3 :=
    if isLegacyDiesel then
      9.38 * (s.P2 / s.N1) ^ (0.84 : ℝ) + K3 * s.P2 ^ (0.7 : ℝ)
    else if isLegacySteam then
      0.16 * s.P2 ^ (0.89 : ℝ)
    else if fuel.IsNuclear then
      2000.0 + ((fuel.Machinery : ℝ) * installedPowerKw * 0.001)
    else
      200.0 + (installedPowerKw * (fuel.Machinery : ℝ) * 0.001)
  let M3 := M3 + s.auxMach.getD 0
  let M2 := M2 + s.auxOutfit.getD 0
  let M0 := (M1 + M2 + M3) * 1.02
  let Vsafe := if s.V > 0.1 then s.V else 0.1
  let fuelPair : ℝ × Option ℝ :=
    if isLegacyDiesel then
      let w := 0.0011 * (0.15 * s.P1 * s.R / Vsafe)
      (w, some w)
    else if isLegacySteam then
      let w := 0.0011 * (0.28 * s.P1 * s.R / Vsafe)
      (w, some w)
    else if fuel.IsNuclear then
      (0.0, none)
    else
      let voyageHours := s.R / Vsafe
      let servicePowerKw := s.P1 * 0.7457
      let totalEnergyMJ := servicePowerKw * voyageHours * 3.6
      let lhv := if s.LHV ≤ 0.001 then 42.7 else s.LHV
      let rawFuelMassTonnes :=
        if lhv > 0 ∧ (fuel.Efficiency : ℝ) > 0 then
          (totalEnergyMJ / (lhv * (fuel.Efficiency : ℝ))) / 1000.0
        else 0.0
      let w := rawFuelMassTonnes * (fuel.TankFactor : ℝ)
      (w, some w)
  let W3 := fuelPair.1 + s.auxFuel.getD 0
  let W4 := 13.0 * s.M ^ (0.35 : ℝ)
  { M1 := M1, M2 := M2, M3 := M3, W3 := W3, W4 := W4,
    W1 := s.M - M0 - W3 - W4, W5 := s.M - M0,
    calculatedFuelMass := fuelPair.2 }

/-! ## Auxiliary loads (`_auxiliary`, lines 3195-3268) -/

/-- Inputs read by `_auxiliary` (GUI fields passed in as values). -/
structure AuxInput where
  enabled : Bool
  Ketype : ℕ
  P2 : ℝ
  designMode : ℕ
  TEU : ℝ
  W : ℝ
  R : ℝ
  V : ℝ
  F8 : ℝ
  hotel : ℝ
  pct : ℝ
  loadFactor : ℝ
  modeText : String

/-- Fields written by `_auxiliary`. -/
structure AuxOutput where
  P_aux_total : ℝ
  M_aux_mach : ℝ
  M_aux_outfit : ℝ
  W_aux_fuel : ℝ
  aux_cost_annual : ℝ
  P2 : ℝ

/-- Shallow embedding of `_auxiliary`.  The `"Reefer" in mode_text` /
`"Hold" in mode_text` substring tests become list-infix tests. -/
noncomputable def auxiliaryRun (a : AuxInput) : AuxOutput :=
  if a.enabled = false then ⟨0, 0, 0, 0, 0, a.P2⟩
  else
    let pct := a.pct / 100.0
    let lf := a.loadFactor
    let isReefer : Bool := decide (("Reefer").toList <:+: a.modeText.toList)
    let isHold : Bool := decide (("Hold").toList <:+: a.modeText.toList)
    let cargoPair : ℝ × ℝ :=
      if isReefer then
        let baseUnits := if a.designMode = 2 then a.TEU else a.W / 14.0
        (baseUnits * pct * lf, 0)
      else if isHold then
        let volEst := a.W * 1.5
        ((volEst / 1000.0) * lf, volEst * 0.02)
      else (0, 0)
    let pTotal := a.hotel + cargoPair.1
    if a.Ketype = 4 then
      ⟨pTotal, 0, cargoPair.2, 0, 0, a.P2 + pTotal⟩
    else
      let sfcAux := 0.220
      let voyageHours := a.R / (if a.V > 0.1 then a.V else 0.1)
      let wAuxFuel := (pTotal * voyageHours * sfcAux) / 1000.0
      let hoursYear := 365.0 * 24.0
      let auxFuelAnnual := (pTotal * hoursYear * sfcAux) / 1000.0
      let price := if a.F8 > 1 then a.F8 else 600.0
      ⟨pTotal, (pTotal * 1.25 * 12.0) / 1000.0, cargoPair.2,
       wAuxFuel, auxFuelAnnual * price, a.P2⟩

/-! ## Range reporting (`_outvdu`, lines 3578-3581) -/

/-- What the output routine prints for the range line (the numeric
formatting of the finite case is abstracted to the value itself). -/
inductive RangeReport where
  | infinite : RangeReport
  | finite : ℝ → RangeReport

/-- `_outvdu` range line: nuclear (`Ketype == 4`) prints `"Infinite"`,
every other engine prints the requested range `R`. -/
noncomputable def rangeReport (Ketype : ℕ) (R : ℝ) : RangeReport :=
  if Ketype = 4 then RangeReport.infinite else RangeReport.finite R

/-! ## Input validation (`_check_data`, lines 1239-1247, ship-dimension mode) -/

/-- The `m_Cargo == 1` (fixed ship dimensions) branch of `_check_data`:
all five geometry inputs must be positive and `CB ≤ 1`.  Note there is no
draught-versus-depth comparison. -/
noncomputable def checkDataShipDims (L1 B D T C : ℝ) : Bool :=
  if L1 ≤ 0 ∨ B ≤ 0 ∨ D ≤ 0 ∨ T ≤ 0 ∨ C ≤ 0 then false
  else if C > 1.0 then false
  else true

/-! ## Dimension-search loop (`on_calculate`, lines 1519-1645) -/

/-- Target weight in TEU mode (`on_calculate`, line 1483). -/
noncomputable def teuTarget (teu avgWeight : ℝ) : ℝ := teu * avgWeight

/-- Exit tolerance of the dimension search (`on_calculate`, lines 1487 and
1501): `E = 0.01 * W * m_Error`. -/
noncomputable def tolerance (W errPct : ℝ) : ℝ := 0.01 * W * errPct

/-- The mutable locals of the cargo-iteration loop.  `W1` is the loop-local
predicted deadweight, `L3`/`W2` the recorded bracket point, `J` the step,
`Y`/`Z` the bracket bookkeeping counters, `Kcount` the iteration counter. -/
structure SearchState where
  L1 : ℝ
  L3 : ℝ
  W1 : ℝ
  W2 : ℝ
  J : ℝ
  Y : ℤ
  Z : ℤ
  Kcount : ℕ

/-- Initial loop state (`on_calculate`, lines 1521-1523):
`W1 = W + 2E + 10`, `Z = 0`, `Y = 1`, `J = 10`, `L3 = W2 = 0`. -/
noncomputable def initState (W E L1 : ℝ) : SearchState :=
  ⟨L1, 0, W + 2.0 * E + 10.0, 0, 10.0, 1, 0, 0⟩

/-- The trial-length update executed at the top of every iteration after the
first (`on_calculate`, lines 1542-1550). -/
noncomputable def searchUpdate (W : ℝ) (s : SearchState) : SearchState :=
  if s.Y ≠ s.Z + 1 then
    { s with L1 := s.L1 - 0.5 * s.J, Y := s.Y + 1 }
  else if s.W1 ≤ W then
    { s with L3 := s.L1, W2 := s.W1, L1 := s.L1 + s.J }
  else
    let W1' := if s.W1 - s.W2 = 0 then s.W2 + 1e-9 else s.W1
    { s with W1 := W1',
             L1 := s.L3 + (W - s.W2) * (s.L1 - s.L3) / (W1' - s.W2),
             J := 0.25 * s.J, Y := s.Y + 1, Z := s.Z + 2 }

/-- One loop iteration: bump `Kcount`, apply the update when `Kcount > 1`,
then run one full Freeboard→Stability→ResistancePower→Mass pass.  The pass is
abstracted as `eval` (it reads the trial geometry from the state and yields
the new predicted cargo deadweight, or `none` on a sub-stage abort). -/
noncomputable def searchStep (W : ℝ) (eval : SearchState → Option ℝ)
    (s : SearchState) : Option SearchState :=
  let s1 := { s with Kcount := s.Kcount + 1 }
  let s2 := if s1.Kcount > 1 then searchUpdate W s1 else s1
  (eval s2).map (fun w1 => { s2 with W1 := w1 })

/-- Outcome of the dimension-search loop. -/
inductive SearchOutcome where
  | exit : SearchState → SearchOutcome
  | failed : SearchState → SearchOutcome
  | fuelOut : SearchState → SearchOutcome

/-- The `while self.Kcount < 500 and abs(self.W - W1) > self.E` loop
(`on_calculate`, line 1538), with explicit fuel.  `exit` is the normal loop
exit (guard false), `failed` a sub-stage abort inside the body. -/
noncomputable def searchLoop (W E : ℝ) (eval : SearchState → Option ℝ)
    (fuel : ℕ) (s : SearchState) : SearchOutcome :=
  if s.Kcount < 500 ∧ ¬(|W - s.W1| ≤ E) then
    if h : fuel = 0 then SearchOutcome.fuelOut s
    else
      match searchStep W eval s with
      | none => SearchOutcome.failed s
      | some s' => searchLoop W E eval (fuel - 1) s'
  else SearchOutcome.exit s
termination_by fuel
decreasing_by
  exact Nat.sub_lt (Nat.pos_of_ne_zero h) Nat.one_pos

/-! ## Resistance/power solver (`_power`, lines 2749-2877; `_resist`,
lines 2903-2919; regression tables from `__init__`, lines 516-539) -/

/-- Speed-coefficient breakpoints `_V1`. -/
def tbl_V1 : List ℚ := [0.0, 0.5, 0.55, 0.6, 0.65, 0.7, 0.75, 0.8]

/-- Thrust-coefficient cubic weights `_A6`. -/
def tbl_A6 : List ℚ :=
  [0.0, 0.2461132, -0.4579327, -0.1716513, 0.4350189,
   3.681142e-02, -5.782276e-02, -3.677581e-02, 8.540912e-02]

/-- Thrust/torque quadratic weights `_B6`. -/
def tbl_B6 : List ℚ :=
  [0.0, 0.5545783, -4.203888e-02, -0.7284746, 0.0,
   0.1089609, -5.997375e-02, -0.1277425]

/-- Thrust/torque linear weights `_C6`. -/
def tbl_C6 : List ℚ := [0.0, 8.077402e-02, 0.6003515, 0.0, 0.0, 0.0884936, 6.762783e-02]

/-- Thrust/torque cubic weights `_D6`. -/
def tbl_D6 : List ℚ := [0.0, -0.2862038, 0.0, 0.0, 0.0, -2.004734e-02]

/-- Resistance regression weights `_X1` (index 0 unused, then 7×16 weights). -/
def tbl_X1 : List ℚ :=
  [0.0,
   -0.7750, 0.2107, 0.0872, 0.0900, 0.0116, 0.0883, 0.0081, 0.0631,
   0.0429, -0.0249, -0.0124, 0.0236, -0.0301, 0.0877, -0.1243, -0.0269,
   -0.7612, 0.2223, 0.0911, 0.0768, 0.0354, 0.0842, 0.0151, 0.0644,
   0.0650, -0.0187, 0.0292, -0.0245, -0.0442, 0.1124, -0.1341, -0.0006,
   -0.7336, 0.2339, 0.0964, 0.0701, 0.0210, 0.0939, 0.0177, 0.0656,
   0.1062, -0.0270, 0.0647, -0.0776, -0.0537, 0.1151, -0.0775, 0.1145,
   -0.6836, 0.2765, 0.0995, 0.0856, 0.0496, 0.1270, 0.0175, 0.0957,
   0.1463, -0.0502, 0.1629, -0.1313, -0.0863, 0.1133, 0.0355, 0.2255,
   -0.5760, 0.3161, 0.1108, 0.1563, 0.2020, 0.1790, 0.0170, 0.1193,
   0.1706, -0.0699, 0.3574, -0.3034, -0.0944, 0.0839, 0.1715, 0.2006,
   -0.3290, 0.3562, 0.1134, 0.4449, 0.3557, 0.1272, 0.0066, 0.1415,
   0.1238, -0.0051, 0.2882, -0.2508, -0.0115, -0.0156, 0.2569, 0.0138,
   -0.0384, 0.4550, 0.0661, 1.0124, 0.2985, 0.0930, 0.0118, 0.5080,
   0.2203, -0.0514, 0.2110, 0.0486, 0.0046, -0.1433, 0.2680, 0.2283]

/-- Table access as a real number (tuple indexing). -/
noncomputable def vV1 (i : ℕ) : ℝ := ((tbl_V1.getD i 0 : ℚ) : ℝ)
noncomputable def vA6 (i : ℕ) : ℝ := ((tbl_A6.getD i 0 : ℚ) : ℝ)
noncomputable def vB6 (i : ℕ) : ℝ := ((tbl_B6.getD i 0 : ℚ) : ℝ)
noncomputable def vC6 (i : ℕ) : ℝ := ((tbl_C6.getD i 0 : ℚ) : ℝ)
noncomputable def vD6 (i : ℕ) : ℝ := ((tbl_D6.getD i 0 : ℚ) : ℝ)
noncomputable def vX1 (i : ℕ) : ℝ := ((tbl_X1.getD i 0 : ℚ) : ℝ)

/-- `_resist`: one breakpoint of the resistance regression. -/
noncomputable def resist (L1 B T C : ℝ) (baseIdx : ℕ) (W0 X0 : ℝ) : ℝ :=
  let Z1 : ℝ := 1.0
  let Z2 := (L1 / W0 - 5.296) / 1.064
  let Z3 := 10.0 * (B / T - 3.025) / 9.05
  let Z4 := 1000.0 * (C - 0.725) / 75.0
  let Z5 := (X0 - 0.77) / 2.77
  let R1 := vX1 (baseIdx + 1) * Z1 + vX1 (baseIdx + 2) * Z2 +
            vX1 (baseIdx + 3) * Z3 + vX1 (baseIdx + 4) * Z4
  let R2 := vX1 (baseIdx + 5) * Z5 + vX1 (baseIdx + 6) * Z2 * Z2 +
            vX1 (baseIdx + 7) * Z3 * Z3 + vX1 (baseIdx + 8) * Z4 * Z4
  let R3 := vX1 (baseIdx + 9) * Z5 * Z5 + vX1 (baseIdx + 10) * Z2 * Z3 +
            vX1 (baseIdx + 11) * Z2 * Z4
  let R4 := vX1 (baseIdx + 12) * Z2 * Z5 + vX1 (baseIdx + 13) * Z3 * Z4 +
            vX1 (baseIdx + 14) * Z3 * Z5
  let R5 := vX1 (baseIdx + 15) * Z4 * Z5 + vX1 (baseIdx + 16) * Z5 * Z4 * Z4
  (R1 + R2 + R3 + R4 + R5) * 5.1635 + 13.1035

/-- The fields of the solver state read by `_power`. -/
structure PowerInput where
  L1 : ℝ
  B : ℝ
  T : ℝ
  C : ℝ
  M : ℝ
  V : ℝ
  N1 : ℝ
  N2 : ℝ
  Pdt : ℝ
  maxit : ℕ
  Ketype : ℕ
  ignspd : Bool
  ignpth : Bool
  dbgmd : Bool
  mCargo : ℕ

/-- Result of the speed-coefficient check at the head of `_power`
(lines 2765, 2772-2781): the `Kpwrerr` flag and whether `_power` aborts. -/
structure SpeedCheckResult where
  Kpwrerr : ℕ
  abort : Bool

/-- The non-dimensional speed coefficient `V0 = V / sqrt(3.28 * L1_safe)`
(lines 2755, 2765). -/
noncomputable def V0of (V L1 : ℝ) : ℝ :=
  let L1s := if L1 > 0 then L1 else 1e-9
  V / Real.sqrt (3.28 * L1s)

/-- Speed-band check: `SPEED_LOW` below 0.35, `SPEED_HIGH` above 0.90;
abort unless ignored (debug mode also suppresses), but always abort in
fixed-dimension mode (`m_Cargo == 1`). -/
noncomputable def speedCheck (V L1 : ℝ) (ignspd dbgmd : Bool) (mCargo : ℕ) :
    SpeedCheckResult :=
  let V0 := V0of V L1
  if V0 < 0.35 then
    ⟨SPEED_LOW, (!ignspd && !dbgmd) || (mCargo == 1)⟩
  else if V0 > 0.90 then
    ⟨SPEED_HIGH, (!ignspd && !dbgmd) || (mCargo == 1)⟩
  else ⟨1, false⟩

/-- Result of the pitch-ratio check after the Newton iteration
(lines 2850-2859). -/
structure PitchCheckResult where
  Kpwrerr : ℕ
  abort : Bool

/-- Pitch-ratio check on `P5` against `L3 = 0.5` / `L4 = 1.4`: the code
multiplies `Kpwrerr` by `PITCH_LOW` when `P5 > 1.4` and by `PITCH_HIGH` when
`P5 < 0.5`; abort unless ignored (debug also suppresses), always abort in
fixed-dimension mode. -/
noncomputable def pitchCheck (k : ℕ) (P5 : ℝ) (ignpth dbgmd : Bool) (mCargo : ℕ) :
    PitchCheckResult :=
  if P5 > 1.4 then
    ⟨k * PITCH_LOW, (!ignpth && !dbgmd) || (mCargo == 1)⟩
  else if P5 < 0.5 then
    ⟨k * PITCH_HIGH, (!ignpth && !dbgmd) || (mCargo == 1)⟩
  else ⟨k, false⟩

/-- The propeller residual `A9` as a function of `P5` (lines 2825, 2832):
`A9 = Z4 + P5*(Y4 + P5*(X4 + P5*D6[1])) - T3`. -/
noncomputable def newtonF (Z4 Y4 X4 D61 T3 P5 : ℝ) : ℝ :=
  Z4 + P5 * (Y4 + P5 * (X4 + P5 * D61)) - T3

/-- The closed-form derivative `B9` used by the Newton step (line 2829):
`B9 = Y4 + P5*(2*X4 + 3*P5*D6[1])`. -/
noncomputable def newtonDeriv (Y4 X4 D61 P5 : ℝ) : ℝ :=
  Y4 + P5 * (2.0 * X4 + 3.0 * P5 * D61)

/-- The `while m0 < mm and abs(A9) > 0.00001` Newton iteration
(lines 2827-2832), with explicit fuel.  Returns the final `(m0, P5)`. -/
noncomputable def newtonGo (Z4 Y4 X4 D61 T3 : ℝ) (mm : ℕ)
    (fuel m0 : ℕ) (P5 A9 : ℝ) : ℕ × ℝ :=
  if m0 < mm ∧ ¬(|A9| ≤ 0.00001) then
    if h : fuel = 0 then (m0, P5)
    else
      let B9 := newtonDeriv Y4 X4 D61 P5
      let B9 := if B9 = 0 then 1e-9 else B9
      let P6 := P5 - A9 / B9
      newtonGo Z4 Y4 X4 D61 T3 mm (fuel - 1) (m0 + 1) P6 (newtonF Z4 Y4 X4 D61 T3 P6)
  else (m0, P5)
termination_by fuel
decreasing_by
  exact Nat.sub_lt (Nat.pos_of_ne_zero h) Nat.one_pos

/-- `L1_safe` (line 2755). -/
noncomputable def power_L1s (s : PowerInput) : ℝ := if s.L1 > 0 then s.L1 else 1e-9

/-- `V0 = V / sqrt(3.28 * L1_safe)` (line 2765). -/
noncomputable def power_V0 (s : PowerInput) : ℝ :=
  s.V / Real.sqrt (3.28 * power_L1s s)

/-- `W0 = (L1*B*T*C)**(1/3)` with the zero guard (lines 2766-2767). -/
noncomputable def power_W0 (s : PowerInput) : ℝ :=
  let w := (s.L1 * s.B * s.T * s.C) ^ ((1 : ℝ) / 3)
  if w = 0 then 1e-9 else w

/-- `X0 = 20*(C - 0.675)` (line 2754). -/
noncomputable def power_X0 (s : PowerInput) : ℝ := 20.0 * (s.C - 0.675)

/-- The speed-band index search (lines 2783-2788): the inner
`while i < 8 and V0 > V1[i]` loop. -/
noncomputable def bandLoop (V0 : ℝ) (fuel i l : ℕ) : ℕ :=
  if i < 8 ∧ V0 > vV1 i then
    if h : fuel = 0 then l
    else bandLoop V0 (fuel - 1) (i + 1) i
  else l
termination_by fuel
decreasing_by
  exact Nat.sub_lt (Nat.pos_of_ne_zero h) Nat.one_pos

/-- Band selection `l` (lines 2783-2788). -/
noncomputable def speedBand (V0 : ℝ) : ℕ :=
  if V0 < vV1 1 then 1
  else if V0 < vV1 7 then bandLoop V0 8 1 1
  else 6

/-- Interpolated regression value `R6` (lines 2790-2794). -/
noncomputable def power_R6 (s : PowerInput) : ℝ :=
  let l := speedBand (power_V0 s)
  let Al := resist s.L1 s.B s.T s.C (16 * (l - 1)) (power_W0 s) (power_X0 s)
  let Al1 := resist s.L1 s.B s.T s.C (16 * l) (power_W0 s) (power_X0 s)
  Al + (power_V0 s - vV1 l) * (Al1 - Al) / (vV1 (l + 1) - vV1 l)

/-- Length-corrected resistance `R8` (lines 2795-2798). -/
noncomputable def power_R8 (s : PowerInput) : ℝ :=
  let R7 := power_R6 s * power_W0 s / (2.4938 * power_L1s s)
  if s.L1 ≥ 122.0 then R7 - 0.1 * (s.L1 - 122.0) / (s.L1 + 66.0)
  else R7 + 1.8e-4 * (122.0 - s.L1) ^ (1.3 : ℝ)

/-- Effective power `P` (lines 2800-2801). -/
noncomputable def power_P (s : PowerInput) : ℝ :=
  power_R8 s * s.V ^ (3 : ℕ) * (s.M * 2204.0 / 2240.0) ^ ((2 : ℝ) / 3) / 427.1

/-- Wake fraction `W9` (line 2804). -/
noncomputable def power_W9 (s : PowerInput) : ℝ :=
  1.1 - 3.4 * s.C + 3.1 * s.C ^ (1.9 : ℝ)

/-- Advance ratio `J3 = V5/(N5_safe * D5_safe)` (lines 2803-2812). -/
noncomputable def power_J3 (s : PowerInput) : ℝ :=
  let D5 := s.Pdt * s.T
  let N5 := s.N2 / 60.0
  let V5 := s.V * 0.515 * (1.0 - power_W9 s)
  V5 / ((if N5 = 0 then 1e-9 else N5) * (if D5 = 0 then 1e-9 else D5))

/-- `J2 = J3 - J1` with `J1 = 0.4581238` (lines 2809, 2813). -/
noncomputable def power_J2 (s : PowerInput) : ℝ := power_J3 s - 0.4581238

/-- Required thrust `T5` (lines 2805-2807). -/
noncomputable def power_T5 (s : PowerInput) : ℝ :=
  let T9 := 0.6 * power_W9 s
  0.7461 * power_P s / (0.515 * (if s.V = 0 then 1e-9 else s.V) * (1.0 - T9))

/-- Thrust-loading target `T3` (lines 2810-2815; the ZeroDivision guard is
unreachable because of the `N5`/`D5` substitutions, and Lean's `x / 0 = 0`
convention matches the `except` fallback anyway). -/
noncomputable def power_T3 (s : PowerInput) : ℝ :=
  let D5 := s.Pdt * s.T
  let N5 := s.N2 / 60.0
  let N5s := if N5 = 0 then 1e-9 else N5
  let D5s := if D5 = 0 then 1e-9 else D5
  power_T5 s / (1.025 * N5s ^ (2 : ℕ) * D5s ^ (4 : ℕ))

/-- Cubic coefficients in `J2` (lines 2818-2823). -/
noncomputable def power_Z4 (s : PowerInput) : ℝ :=
  vA6 1 + power_J2 s * (vA6 2 + power_J2 s * (vA6 3 + power_J2 s * vA6 4))
noncomputable def power_Y4 (s : PowerInput) : ℝ :=
  vB6 1 + power_J2 s * (vB6 2 + power_J2 s * vB6 3)
noncomputable def power_X4 (s : PowerInput) : ℝ :=
  vC6 1 + power_J2 s * vC6 2
noncomputable def power_Z5 (s : PowerInput) : ℝ :=
  vA6 5 + power_J2 s * (vA6 6 + power_J2 s * (vA6 7 + power_J2 s * vA6 8))
noncomputable def power_Y5 (s : PowerInput) : ℝ :=
  vB6 5 + power_J2 s * (vB6 6 + power_J2 s * vB6 7)
noncomputable def power_X5 (s : PowerInput) : ℝ :=
  vC6 5 + power_J2 s * vC6 6

/-- Initial Newton iterate `P5 = P3 - P4 = 1.0 - 0.9304762` (lines 2809, 2824). -/
noncomputable def power_P50 : ℝ := 1.0 - 0.9304762

/-- The Newton iteration of `_power`, run with `mm = maxit` fuel. -/
noncomputable def power_newton (s : PowerInput) : ℕ × ℝ :=
  newtonGo (power_Z4 s) (power_Y4 s) (power_X4 s) (vD6 1) (power_T3 s)
    s.maxit s.maxit 0 power_P50
    (newtonF (power_Z4 s) (power_Y4 s) (power_X4 s) (vD6 1) (power_T3 s) power_P50)

/-- Final `P5` at loop exit. -/
noncomputable def power_P5exit (s : PowerInput) : ℝ := (power_newton s).2

/-- Open-water efficiency `Q1` (lines 2840-2843). -/
noncomputable def power_Q1 (s : PowerInput) : ℝ :=
  let P5 := power_P5exit s
  let T3v := power_Z4 s + P5 * (power_Y4 s + P5 * (power_X4 s + P5 * vD6 1))
  let Q3 := power_Z5 s + P5 * (power_Y5 s + P5 * (power_X5 s + P5 * vD6 5))
  let Q3 := if Q3 = 0 then 1e-9 else Q3
  T3v * power_J3 s / (2.0 * Real.pi * Q3)

/-- Hull efficiency `Q2 = (1-T9)/(1-W9)` (line 2844). -/
noncomputable def power_Q2 (s : PowerInput) : ℝ :=
  (1.0 - 0.6 * power_W9 s) / (1.0 - power_W9 s)

/-- Quasi-propulsive coefficient `Q` (line 2845). -/
noncomputable def power_Q (s : PowerInput) : ℝ := power_Q1 s * power_Q2 s

/-- Solved pitch ratio `P5 += P4` (line 2845). -/
noncomputable def power_P5f (s : PowerInput) : ℝ := power_P5exit s + 0.9304762

/-- Ship correlation factor `F0` (line 2861). -/
noncomputable def power_F0 (s : PowerInput) : ℝ :=
  1.2 - Real.sqrt (power_L1s s) / 47.0

/-- Transmission efficiency `F9` by engine type (lines 2863-2868). -/
noncomputable def power_F9 (s : PowerInput) : ℝ :=
  if s.Ketype = 1 then 0.98
  else if s.Ketype = 2 then 0.95
  else if s.Ketype = 3 then 0.95
  else if s.Ketype = 4 then 0.95
  else 0.96

/-- Service power `P1` (lines 2870-2873). -/
noncomputable def power_P1 (s : PowerInput) : ℝ :=
  (power_P s / (if power_Q s = 0 then 1e-9 else power_Q s)) * power_F0 s /
    (if power_F9 s = 0 then 1e-9 else power_F9 s)

/-- Installed power `P2 = P1 * (1 + 0.01*30)` (lines 2874-2875). -/
noncomputable def power_P2 (s : PowerInput) : ℝ :=
  power_P1 s * (1.0 + 0.01 * 30.0)

/-- The fields of the solver state written by `_power`, plus the success
flag (the Python return value) and the abort stage.  On an abort, fields
past the aborting stage keep the placeholder 0 (the Python code leaves the
previous state values in place; no claim depends on those stale values). -/
structure PowerOutput where
  Kpwrerr : ℕ
  ok : Bool
  newtonSteps : ℕ
  P : ℝ
  Q1 : ℝ
  Q2 : ℝ
  Q : ℝ
  P5 : ℝ
  F0 : ℝ
  F9 : ℝ
  P1 : ℝ
  P2 : ℝ

/-- Shallow embedding of `_power`: speed check, resistance regression,
Newton pitch solve, pitch check, powering. -/
noncomputable def powerRun (s : PowerInput) : PowerOutput :=
  let sc := speedCheck s.V s.L1 s.ignspd s.dbgmd s.mCargo
  if sc.abort then
    ⟨sc.Kpwrerr, false, 0, 0, 0, 0, 0, 0, 0, 0, 0, 0⟩
  else
    let nr := power_newton s
    if nr.1 ≥ s.maxit then
      ⟨NOT_CONVERGE, false, nr.1, power_P s, 0, 0, 0, 0, 0, 0, 0, 0⟩
    else
      let pc := pitchCheck sc.Kpwrerr (power_P5f s) s.ignpth s.dbgmd s.mCargo
      if pc.abort then
        ⟨pc.Kpwrerr, false, nr.1, power_P s, power_Q1 s, power_Q2 s,
         power_Q s, power_P5f s, 0, 0, 0, 0⟩
      else
        ⟨pc.Kpwrerr, true, nr.1, power_P s, power_Q1 s, power_Q2 s,
         power_Q s, power_P5f s, power_F0 s, power_F9 s, power_P1 s, power_P2 s⟩

/-! ## Volume feasibility (`_get_volume_status`, lines 1326-1372;
`_solve_volume_limit`, lines 1374-1458; call site `on_calculate`, line 1686) -/

/-- The solver state threaded through the volume-expansion loop, together
with the request parameters each helper reads. -/
structure VolState where
  L1 : ℝ
  B : ℝ
  D : ℝ
  T : ℝ
  C : ℝ
  M : ℝ
  M1 : ℝ
  M2 : ℝ
  M3 : ℝ
  W : ℝ
  W1 : ℝ
  W5 : ℝ
  P1 : ℝ
  P2 : ℝ
  calculatedFuelMass : Option ℝ
  VolumeLimit : Bool
  Lbratio : Bool
  LbratioV : ℝ
  designMode : ℕ
  TEU : ℝ
  CustomDensity : ℝ
  shipName : String
  fuelName : String
  N1 : ℝ
  N2 : ℝ
  V : ℝ
  R : ℝ
  LHV : ℝ
  Pdt : ℝ
  maxit : ℕ
  Ketype : ℕ
  ignspd : Bool
  ignpth : Bool
  dbgmd : Bool
  mCargo : ℕ
  auxMach : Option ℝ
  auxOutfit : Option ℝ
  auxFuel : Option ℝ

/-- `_get_volume_status`: returns (required, available, ratio). -/
noncomputable def volumeStatus (st : VolState) : ℝ × ℝ × ℝ :=
  let ship := ShipConfig.get st.shipName
  let fuel := FuelConfig.get st.fuelName
  let volHull := st.L1 * st.B * st.D * st.C
  let volAvail := volHull * (ship.Profile_Factor : ℝ)
  let volCargo : ℝ :=
    if st.designMode = 2 then st.TEU * 33.0
    else if ship.Design_Type = "Volume" then
      if ship.ID = 5 then st.W * 50.0 else st.W / 0.5
    else
      let density := if st.CustomDensity > 0 then st.CustomDensity
                     else (ship.Cargo_Density : ℝ)
      (st.W / density) * 1.10
  let volFuel : ℝ :=
    match st.calculatedFuelMass with
    | some fm =>
        if fm > 0 ∧ (fuel.Density : ℝ) > 0 then
          (fm * 1000.0) / (fuel.Density : ℝ) * (fuel.VolFactor : ℝ)
        else 0
    | none => 0
  let volMach := (st.P2 * 0.7457) * 0.4
  let volStores := st.W1 * 0.05
  let volReq := volCargo + volFuel + volMach + volStores
  (volReq, volAvail, volReq / (if volAvail > 0 then volAvail else 1.0))

/-- Required volume (first component of `_get_volume_status`). -/
noncomputable def volumeReq (st : VolState) : ℝ := (volumeStatus st).1

/-- Available volume (second component of `_get_volume_status`). -/
noncomputable def volumeAvail (st : VolState) : ℝ := (volumeStatus st).2.1

/-- Volume ratio (third component of `_get_volume_status`). -/
noncomputable def volumeRatio (st : VolState) : ℝ := (volumeStatus st).2.2

/-- Assemble the `_mass` inputs from the threaded state. -/
noncomputable def massInputOf (st : VolState) : MassInput :=
  ⟨st.L1, st.B, st.T, st.D, st.C, st.M, st.P1, st.P2, st.N1, st.V, st.R,
   st.LHV, st.Ketype, st.shipName, st.fuelName,
   st.auxMach, st.auxOutfit, st.auxFuel⟩

/-- Run `_mass` and write its outputs back into the state. -/
noncomputable def applyMass (st : VolState) : VolState :=
  let o := massRun (massInputOf st)
  { st with M1 := o.M1, M2 := o.M2, M3 := o.M3, W1 := o.W1, W5 := o.W5,
            calculatedFuelMass :=
              match o.calculatedFuelMass with
              | some v => some v
              | none => st.calculatedFuelMass }

/-- Assemble the `_power` inputs from the threaded state. -/
noncomputable def powerInputOf (st : VolState) : PowerInput :=
  ⟨st.L1, st.B, st.T, st.C, st.M, st.V, st.N1, st.N2, st.Pdt, st.maxit,
   st.Ketype, st.ignspd, st.ignpth, st.dbgmd, st.mCargo⟩

/-- Run `_power`; on success write `P1`/`P2` back, on failure leave the
previous powering values in place (as the early `return False` does). -/
noncomputable def applyPower (st : VolState) : VolState × Bool :=
  let o := powerRun (powerInputOf st)
  (if o.ok then { st with P1 := o.P1, P2 := o.P2 } else st, o.ok)

/-- One iteration body of the `_solve_volume_limit` expansion loop
(lines 1398-1445), together with the quantities its exit branch needs. -/
structure VolStepOut where
  st : VolState
  newLightship : ℝ
  fuelMass : ℝ
  miscMass : ℝ

/-- One expansion step: scale dimensions by 2 % (breadth from the L/B ratio
when constrained), set the provisional draught `T = 0.7 D`, re-run
`_power` (failures tolerated by scaling power by `1.02²`), re-run `_mass`,
rebuild the required displacement, and re-derive the draught capped at
`0.9 D`. -/
noncomputable def volStep (st : VolState) : VolStepOut :=
  let ef : ℝ := 1.02
  let L1' := st.L1 * ef
  let B' := if L1' > 0 then (if st.Lbratio then L1' / st.LbratioV else st.B * ef)
            else st.B
  let D' := if L1' > 0 then st.D * ef else st.D
  let Csafe := if st.C > 0 then st.C else 0.8
  let st1 := { st with L1 := L1', B := B', D := D', T := D' * 0.7 }
  let pr := applyPower st1
  let st2 := if pr.2 then pr.1
             else { pr.1 with P1 := pr.1.P1 * ef ^ (2 : ℕ),
                              P2 := pr.1.P2 * ef ^ (2 : ℕ) }
  let st3 := applyMass st2
  let fuelMass := st3.calculatedFuelMass.getD 0
  let newLightship := (st3.M1 + st3.M2 + st3.M3) * 1.02
  let miscMass := 13.0 * st3.M ^ (0.35 : ℝ)
  let required := st3.W + newLightship + fuelMass + miscMass
  let st4 := { st3 with M := required }
  let newT := st4.M / (st4.L1 * st4.B * Csafe * 1.025)
  let newT := if newT > st4.D * 0.9 then st4.D * 0.9 else newT
  ⟨{ st4 with T := newT }, newLightship, fuelMass, miscMass⟩

/-- The `for i in range(50)` expansion loop, with explicit fuel and a step
counter.  Returns the final state, the Python return value, and the number
of iterations executed. -/
noncomputable def volLoop (fuel : ℕ) (st : VolState) (steps : ℕ) :
    VolState × Bool × ℕ :=
  if h : fuel = 0 then (st, false, steps)
  else
    let o := volStep st
    if volumeRatio o.st ≤ 1.0 then
      ({ o.st with W1 := o.st.M - o.newLightship - o.fuelMass - o.miscMass },
       true, steps + 1)
    else volLoop (fuel - 1) o.st (steps + 1)
termination_by fuel
decreasing_by
  exact Nat.sub_lt (Nat.pos_of_ne_zero h) Nat.one_pos

/-- `_solve_volume_limit`: no-op when the limit is disabled or the ratio is
already ≤ 1, otherwise run the 50-step expansion loop. -/
noncomputable def solveVolumeLimit (st : VolState) : VolState × Bool :=
  if st.VolumeLimit = false then (st, true)
  else if volumeRatio st ≤ 1.0 then (st, true)
  else
    let r := volLoop 50 st 0
    (r.1, r.2.1)

/-- The call site (`on_calculate`, line 1686): the Boolean result of
`_solve_volume_limit` is discarded and the pipeline continues with the
(possibly expanded) state, so a cap-out is a warning, not a fatal error. -/
noncomputable def onCalculateVolumePhase (st : VolState) : VolState :=
  (solveVolumeLimit st).1

/-! ## Concrete test states -/

/-- A representative tanker state for the mass estimator (diesel, 63 000 t
displacement, no auxiliary loads). -/
noncomputable def tankerMassState : MassInput :=
  ⟨200, 32, 12, 15, 0.8, 63000, 20000, 26000, 120, 15, 12000, 42.7, 1,
   "Tanker", "Direct diesel", none, none, none⟩

/-- A representative tanker state entering the volume-expansion loop. -/
noncomputable def sampleVolState : VolState :=
  { L1 := 200, B := 32, D := 15, T := 12, C := 0.8, M := 63000,
    M1 := 8000, M2 := 1600, M3 := 900, W := 50000, W1 := 50000, W5 := 52000,
    P1 := 20000, P2 := 26000, calculatedFuelMass := some 1500,
    VolumeLimit := true, Lbratio := false, LbratioV := 6.5,
    designMode := 0, TEU := 0, CustomDensity := -1.0,
    shipName := "Tanker", fuelName := "Direct diesel",
    N1 := 120, N2 := 120, V := 15, R := 12000, LHV := 42.7, Pdt := 0.6,
    maxit := 1000, Ketype := 1, ignspd := false, ignpth := false,
    dbgmd := false, mCargo := 0,
    auxMach := none, auxOutfit := none, auxFuel := none }

/-! ## Theorems -/

theorem shipGet_tanker : ShipConfig.get ("Tanker") = ship_Tanker := rfl

theorem fuelGet_directDiesel :
    FuelConfig.get ("Direct diesel") = fuel_DirectDiesel := rfl

theorem fuelGet_nuclear :
    FuelConfig.get ("Nuclear Steam Turbine") = fuel_NuclearSteamTurbine := rfl

/-- Helper: the gap between displacement and the unmargined mass sum is
exactly the 2 % lightship margin. -/
theorem mass_sum_gap (s : MassInput) :
    s.M - ((massRun s).M1 + (massRun s).M2 + (massRun s).M3 + (massRun s).W3 +
      (massRun s).W4 + (massRun s).W1) =
    0.02 * ((massRun s).M1 + (massRun s).M2 + (massRun s).M3) := by
  simp only [massRun]
  ring

/-- Claim C3 (amended): for every mass-estimator result the displacement
equals the margined lightship plus fuel, stores and cargo deadweight
exactly: `M = 1.02·(M1+M2+M3) + W3 + W4 + W1`. -/
theorem c3_mass_balance_with_margin (s : MassInput) :
    s.M = ((massRun s).M1 + (massRun s).M2 + (massRun s).M3) * 1.02
      + (massRun s).W3 + (massRun s).W4 + (massRun s).W1 := by
  simp only [massRun]
  ring

theorem tankerMass_M2_value :
    (massRun tankerMassState).M2 = (0.37 - 200 / 1765) * 200 * 32 := by
  simp only [massRun, tankerMassState]
  norm_num [shipGet_tanker, ship_Tanker, fuelGet_directDiesel, fuel_DirectDiesel]

theorem tankerMass_M1_value :
    (massRun tankerMassState).M1 = 0.032 * (9560 : ℝ) ^ (1.36 : ℝ) * 1.05 := by
  simp only [massRun, tankerMassState]
  norm_num [shipGet_tanker, ship_Tanker, fuelGet_directDiesel, fuel_DirectDiesel]

theorem tankerMass_M3_nonneg : 0 ≤ (massRun tankerMassState).M3 := by
  simp only [massRun, tankerMassState]
  norm_num [shipGet_tanker, ship_Tanker, fuelGet_directDiesel, fuel_DirectDiesel]
  positivity

/-- Helper: `9560^1.36 ≥ 9560·21` (via `9560^0.36 ≥ 9560^(1/3) ≥ 21`). -/
theorem rpow_9560_lower : (9560 : ℝ) * 21 ≤ (9560 : ℝ) ^ (1.36 : ℝ) := by
  have h0 : (0 : ℝ) < 9560 := by norm_num
  have h36 : (9560 : ℝ) ^ ((1 : ℝ) / 3) ≤ (9560 : ℝ) ^ (0.36 : ℝ) :=
    Real.rpow_le_rpow_of_exponent_le (by norm_num) (by norm_num)
  have h21 : (21 : ℝ) ≤ (9560 : ℝ) ^ ((1 : ℝ) / 3) := by
    have hmono : ((9261 : ℝ)) ^ ((1 : ℝ) / 3) ≤ (9560 : ℝ) ^ ((1 : ℝ) / 3) :=
      Real.rpow_le_rpow (by norm_num) (by norm_num) (by norm_num)
    have hval : ((9261 : ℝ)) ^ ((1 : ℝ) / 3) = 21 := by
      have h9261 : ((9261 : ℝ)) = (21 : ℝ) ^ (3 : ℝ) := by
        rw [show (3 : ℝ) = ((3 : ℕ) : ℝ) by norm_num, Real.rpow_natCast]
        norm_num
      rw [h9261, ← Real.rpow_mul (by norm_num : (0 : ℝ) ≤ 21)]
      norm_num
    linarith
  have hstep : (9560 : ℝ) * 21 ≤ 9560 * (9560 : ℝ) ^ (0.36 : ℝ) := by
    have := le_trans h21 h36
    nlinarith
  calc (9560 : ℝ) * 21 ≤ 9560 * (9560 : ℝ) ^ (0.36 : ℝ) := hstep
    _ = (9560 : ℝ) ^ (1 : ℝ) * (9560 : ℝ) ^ (0.36 : ℝ) := by rw [Real.rpow_one]
    _ = (9560 : ℝ) ^ (1.36 : ℝ) := by
        rw [← Real.rpow_add h0]
        norm_num

/-- Claim C3 counterexample: at `tankerMassState` the unmargined mass sum
`M1+M2+M3+W3+W4+W1` misses the displacement by the 2 % lightship margin
(more than 160 t), far beyond the 1e-3·displacement (= 63 t) tolerance. -/
theorem c3_counterexample :
    ¬(|tankerMassState.M -
        ((massRun tankerMassState).M1 + (massRun tankerMassState).M2 +
         (massRun tankerMassState).M3 + (massRun tankerMassState).W3 +
         (massRun tankerMassState).W4 + (massRun tankerMassState).W1)| ≤
      1e-3 * tankerMassState.M) := by
  intro h
  have hgap := mass_sum_gap tankerMassState
  rw [hgap] at h
  have hM : (1e-3 : ℝ) * tankerMassState.M = 63 := by
    norm_num [tankerMassState]
  rw [hM] at h
  have hM1 := tankerMass_M1_value
  have hM2 := tankerMass_M2_value
  have hM3 := tankerMass_M3_nonneg
  have hb := rpow_9560_lower
  have hM1b : (6745 : ℝ) ≤ (massRun tankerMassState).M1 := by
    rw [hM1]; nlinarith
  have hM2b : (1600 : ℝ) ≤ (massRun tankerMassState).M2 := by
    rw [hM2]; norm_num
  have habs := (abs_le.mp h).2
  linarith

/-- Claim C4: the mass estimator is a total function (`massRun` returns a
result for every input; a negative cargo deadweight is an ordinary output),
with `W1 = M − 1.02·(steel+outfit+machinery) − fuel − 13·M^0.35` and the
stores mass the fixed power law `13·M^0.35`. -/
theorem c4_mass_residual_formula :
    (∀ s : MassInput,
      (massRun s).W1 =
        s.M - ((massRun s).M1 + (massRun s).M2 + (massRun s).M3) * 1.02
          - (massRun s).W3 - (massRun s).W4
      ∧ (massRun s).W4 = 13.0 * s.M ^ (0.35 : ℝ))
    ∧ ∃ s : MassInput, (massRun s).W1 < 0 := by
  constructor
  · intro s
    constructor
    · simp only [massRun]
    · simp only [massRun]
  · refine ⟨⟨0, 0, 0, 0, 0, 0, 0, 0, 120, 15, 0, 42.7, 1, "Tanker",
      "Direct diesel", none, none, none⟩, ?_⟩
    have hz84 : ((0 : ℝ)) ^ (0.84 : ℝ) = 0 := Real.zero_rpow (by norm_num)
    have hz7 : ((0 : ℝ)) ^ (0.7 : ℝ) = 0 := Real.zero_rpow (by norm_num)
    have hz35 : ((0 : ℝ)) ^ (0.35 : ℝ) = 0 := Real.zero_rpow (by norm_num)
    have h1 : (0 : ℝ) < (250 : ℝ) ^ (1.36 : ℝ) :=
      Real.rpow_pos_of_pos (by norm_num) _
    simp only [massRun]
    norm_num [shipGet_tanker, ship_Tanker, fuelGet_directDiesel,
      fuel_DirectDiesel, hz84, hz7, hz35]
    nlinarith

/-- Claim C10: the profile lookups are total — `FuelConfig.get` returns the
Direct-diesel profile and `ShipConfig.get` the Tanker profile for any name
missing from the tables (and the defaults are the corresponding table
entries), so no stage can fail on an unknown name. -/
theorem c10_lookup_defaults :
    (∀ name : String, FuelConfig.DATA.lookup name = none →
      FuelConfig.get name = fuel_DirectDiesel)
    ∧ (∀ name : String, ShipConfig.DATA.lookup name = none →
      ShipConfig.get name = ship_Tanker)
    ∧ FuelConfig.DATA.lookup ("Direct diesel") = some fuel_DirectDiesel
    ∧ ShipConfig.DATA.lookup ("Tanker") = some ship_Tanker := by
  refine ⟨?_, ?_, rfl, rfl⟩
  · intro name h
    simp [FuelConfig.get, h]
  · intro name h
    simp [ShipConfig.get, h]

/-- Witness for C10 at the unknown name `"Bogus"`. -/
theorem c10_lookup_defaults_witness :
    FuelConfig.get ("Bogus") = fuel_DirectDiesel
    ∧ ShipConfig.get ("Bogus") = ship_Tanker :=
  ⟨c10_lookup_defaults.1 ("Bogus") rfl,
   c10_lookup_defaults.2.1 ("Bogus") rfl⟩

/-- Helper: `_auxiliary` never books auxiliary diesel fuel for a nuclear
plant (`Ketype == 4` routes the auxiliary load into `P2` instead). -/
theorem auxiliary_nuclear_no_fuel (a : AuxInput) (h : a.Ketype = 4) :
    (auxiliaryRun a).W_aux_fuel = 0 := by
  unfold auxiliaryRun
  rcases Bool.eq_false_or_eq_true a.enabled with he | he <;> simp [he, h]

/-- Claim C7: with the nuclear fuel type every `_mass` run yields fuel mass
exactly 0 — also when auxiliary loads are enabled, since `_auxiliary` books
no `W_aux_fuel` for `Ketype == 4` — and `_outvdu` reports the range as
unbounded regardless of the requested range. -/
theorem c7_nuclear_fuel_and_range :
    (∀ s : MassInput, s.Ketype = 4 → s.fuelName = "Nuclear Steam Turbine" →
      (s.auxFuel = none ∨
        ∃ a : AuxInput, a.Ketype = 4 ∧ s.auxFuel = some ((auxiliaryRun a).W_aux_fuel)) →
      (massRun s).W3 = 0)
    ∧ (∀ a : AuxInput, a.Ketype = 4 → (auxiliaryRun a).W_aux_fuel = 0)
    ∧ (∀ r : ℝ, rangeReport 4 r = RangeReport.infinite) := by
  refine ⟨?_, auxiliary_nuclear_no_fuel, ?_⟩
  · intro s hk hf haux
    have hauxv : s.auxFuel.getD 0 = 0 := by
      rcases haux with h | ⟨a, ha, h⟩
      · rw [h]; rfl
      · rw [h, auxiliary_nuclear_no_fuel a ha]; rfl
    simp only [massRun, hk, hf, fuelGet_nuclear, fuel_NuclearSteamTurbine]
    norm_num [hauxv]
  · intro r
    simp [rangeReport]

/-- Witness for C7: a concrete nuclear state with auxiliary loads enabled. -/
theorem c7_nuclear_fuel_and_range_witness :
    (massRun ⟨200, 32, 12, 15, 0.8, 63000, 20000, 26000, 120, 15, 12000,
      42.7, 4, "Tanker", "Nuclear Steam Turbine",
      none, none,
      some ((auxiliaryRun ⟨true, 4, 26000, 0, 0, 50000, 12000, 15, 625,
        1000, 10, 2, "Insulated Hold"⟩).W_aux_fuel)⟩).W3 = 0
    ∧ (auxiliaryRun ⟨true, 4, 26000, 0, 0, 50000, 12000, 15, 625,
        1000, 10, 2, "Insulated Hold"⟩).W_aux_fuel = 0
    ∧ rangeReport 4 12000 = RangeReport.infinite := by
  refine ⟨?_, ?_, ?_⟩
  · exact c7_nuclear_fuel_and_range.1 _ rfl rfl
      (Or.inr ⟨_, rfl, rfl⟩)
  · exact c7_nuclear_fuel_and_range.2.1 _ rfl
  · exact c7_nuclear_fuel_and_range.2.2 12000

/-- Claim C5: `_power` computes `V0 = V/sqrt(3.28·L1)` and flags
`SPEED_LOW` exactly when `V0 < 0.35`, `SPEED_HIGH` exactly when
`V0 > 0.90`; the ignore-speed override records the violation without
aborting, except in fixed-dimension mode (`m_Cargo == 1`), which always
aborts; an abort makes `_power` return failure with that flag. -/
theorem c5_speed_check :
    (∀ (V L1 : ℝ) (ignspd dbgmd : Bool) (mCargo : ℕ),
      ((speedCheck V L1 ignspd dbgmd mCargo).Kpwrerr = SPEED_LOW ↔ V0of V L1 < 0.35)
      ∧ ((speedCheck V L1 ignspd dbgmd mCargo).Kpwrerr = SPEED_HIGH ↔ V0of V L1 > 0.90)
      ∧ (ignspd = true → mCargo ≠ 1 →
          (speedCheck V L1 ignspd dbgmd mCargo).abort = false)
      ∧ (mCargo = 1 → (V0of V L1 < 0.35 ∨ V0of V L1 > 0.90) →
          (speedCheck V L1 ignspd dbgmd mCargo).abort = true))
    ∧ (∀ s : PowerInput,
        (speedCheck s.V s.L1 s.ignspd s.dbgmd s.mCargo).abort = true →
        (powerRun s).ok = false ∧
        (powerRun s).Kpwrerr = (speedCheck s.V s.L1 s.ignspd s.dbgmd s.mCargo).Kpwrerr) := by
  constructor
  · intro V L1 ignspd dbgmd mCargo
    simp only [speedCheck]
    split_ifs with h1 h2
    · refine ⟨by simp [h1], ?_, ?_, ?_⟩
      · simp only [SPEED_LOW, SPEED_HIGH]
        constructor
        · intro h; omega
        · intro h; linarith
      · intro hi hm
        subst hi
        simp [hm]
      · intro hm _hv
        subst hm
        simp
    · refine ⟨?_, by simp [h2], ?_, ?_⟩
      · simp only [SPEED_LOW, SPEED_HIGH]
        constructor
        · intro h; omega
        · intro h; linarith
      · intro hi hm
        subst hi
        simp [hm]
      · intro hm _hv
        subst hm
        simp
    · refine ⟨?_, ?_, ?_, ?_⟩
      · simp only [SPEED_LOW]
        constructor
        · intro h; omega
        · intro h; exact absurd h h1
      · simp only [SPEED_HIGH]
        constructor
        · intro h; omega
        · intro h; exact absurd h h2
      · intro _ _; rfl
      · intro _ hv
        rcases hv with hv | hv
        · exact absurd hv h1
        · exact absurd hv h2
  · intro s h
    simp only [powerRun, h]
    exact ⟨rfl, rfl⟩

/-- Witness for C5: at 5 kn on a 200 m hull (`V0 ≈ 0.195 < 0.35`) the
override suppresses the abort, and without the override `_power` fails. -/
theorem c5_speed_check_witness :
    (speedCheck 5 200 true false 0).abort = false
    ∧ (powerRun ⟨200, 32, 12, 0.8, 63000, 5, 120, 120, 0.6, 1000, 1,
        false, false, false, 0⟩).ok = false := by
  have hV0 : V0of 5 200 < 0.35 := by
    simp only [V0of]
    rw [if_pos (by norm_num : (200 : ℝ) > 0)]
    rw [div_lt_iff (Real.sqrt_pos.mpr (by norm_num))]
    have h7 : (100 / 7 : ℝ) < Real.sqrt (3.28 * 200) := by
      have : (100 / 7 : ℝ) = Real.sqrt ((100 / 7) ^ 2) :=
        (Real.sqrt_sq (by norm_num)).symm
      rw [this]
      apply Real.sqrt_lt_sqrt (by positivity)
      norm_num
    nlinarith [Real.sqrt_nonneg (3.28 * 200 : ℝ)]
  constructor
  · exact (c5_speed_check.1 5 200 true false 0).2.2.1 rfl (by decide)
  · have habort : (speedCheck 5 200 false false 0).abort = true := by
      simp only [speedCheck]
      rw [if_pos hV0]
      decide
    exact ((c5_speed_check.2 ⟨200, 32, 12, 0.8, 63000, 5, 120, 120, 0.6,
      1000, 1, false, false, false, 0⟩) habort).1

/-- Helper: any normal exit of the search loop before the 500-iteration cap
satisfies the loop guard's tolerance. -/
theorem searchLoop_exit_le (W E : ℝ) (eval : SearchState → Option ℝ) :
    ∀ (fuel : ℕ) (s0 s : SearchState),
      searchLoop W E eval fuel s0 = SearchOutcome.exit s →
      s.Kcount < 500 → |W - s.W1| ≤ E := by
  intro fuel
  induction fuel with
  | zero =>
    intro s0 s h hK
    rw [searchLoop] at h
    by_cases hg : s0.Kcount < 500 ∧ ¬(|W - s0.W1| ≤ E)
    · rw [if_pos hg] at h
      simp at h
    · rw [if_neg hg] at h
      cases h
      push_neg at hg
      exact hg hK
  | succ n ih =>
    intro s0 s h hK
    rw [searchLoop] at h
    by_cases hg : s0.Kcount < 500 ∧ ¬(|W - s0.W1| ≤ E)
    · rw [if_pos hg] at h
      rw [dif_neg (Nat.succ_ne_zero n)] at h
      cases hstep : searchStep W eval s0 with
      | none => rw [hstep] at h; simp at h
      | some s' =>
        rw [hstep] at h
        simp only [Nat.succ_sub_one] at h
        exact ih s' s h hK
    · rw [if_neg hg] at h
      cases h
      push_neg at hg
      exact hg hK

/-- Claim C1: when the dimension-search loop exits normally before the
500-iteration cap (deadweight mode, or TEU mode with the derived target
`TEU·avg_weight`), the predicted cargo deadweight satisfies
`|target − W1| ≤ (error_pct/100)·target`, because the exit tolerance is
`E = 0.01·W·m_Error`. -/
theorem c1_converged_within_tolerance :
    (∀ (W errPct : ℝ) (eval : SearchState → Option ℝ) (fuel : ℕ)
       (s0 s : SearchState),
      searchLoop W (tolerance W errPct) eval fuel s0 = SearchOutcome.exit s →
      s.Kcount < 500 → |W - s.W1| ≤ errPct / 100 * W)
    ∧ (∀ (teu avgW errPct : ℝ) (eval : SearchState → Option ℝ) (fuel : ℕ)
       (s0 s : SearchState),
      searchLoop (teuTarget teu avgW) (tolerance (teuTarget teu avgW) errPct)
        eval fuel s0 = SearchOutcome.exit s →
      s.Kcount < 500 →
      |teuTarget teu avgW - s.W1| ≤ errPct / 100 * teuTarget teu avgW) := by
  have key : ∀ (W errPct : ℝ) (eval : SearchState → Option ℝ) (fuel : ℕ)
      (s0 s : SearchState),
      searchLoop W (tolerance W errPct) eval fuel s0 = SearchOutcome.exit s →
      s.Kcount < 500 → |W - s.W1| ≤ errPct / 100 * W := by
    intro W errPct eval fuel s0 s h hK
    have := searchLoop_exit_le W (tolerance W errPct) eval fuel s0 s h hK
    have ht : tolerance W errPct = errPct / 100 * W := by
      unfold tolerance; ring
    linarith [ht ▸ this]
  exact ⟨key, fun teu avgW => key (teuTarget teu avgW)⟩

/-- Witness for C1: a two-iteration run (constant oracle hitting the target
exactly) exits with `Kcount = 1 < 500` and satisfies the tolerance. -/
theorem c1_converged_within_tolerance_witness :
    |(100 : ℝ) - (⟨50, 0, 100, 0, 10, 1, 0, 1⟩ : SearchState).W1| ≤
      1 / 100 * 100 := by
  have hE : tolerance 100 1 = 1 := by unfold tolerance; norm_num
  have hstep : searchStep 100 (fun _ => some 100) (initState 100 1 50) =
      some ⟨50, 0, 100, 0, 10, 1, 0, 1⟩ := by
    simp only [searchStep, initState]
    norm_num
  have hloop : searchLoop 100 (tolerance 100 1) (fun _ => some 100) 500
      (initState 100 (tolerance 100 1) 50) =
      SearchOutcome.exit ⟨50, 0, 100, 0, 10, 1, 0, 1⟩ := by
    rw [hE]
    rw [searchLoop]
    rw [if_pos (by
      refine ⟨by norm_num [initState], ?_⟩
      simp only [initState]
      rw [show (100 : ℝ) - (100 + 2.0 * 1 + 10.0) = -12 by norm_num]
      rw [abs_neg, abs_of_nonneg (by norm_num : (0 : ℝ) ≤ 12)]
      norm_num)]
    rw [dif_neg (by norm_num : (500 : ℕ) ≠ 0)]
    simp only [hstep]
    rw [searchLoop]
    rw [if_neg (by
      intro hg
      have := hg.2
      simp at this)]
  exact c1_converged_within_tolerance.1 100 1 (fun _ => some 100) 500
    (initState 100 (tolerance 100 1) 50) ⟨50, 0, 100, 0, 10, 1, 0, 1⟩
    hloop (by norm_num)

/-- Claim C2 counterexample: at a freshly bracketed state with step `J = 10`
the code sets `J := 0.25·J = 2.5`, not the halved `5`: the step size is
quartered on each new bracket, not halved. -/
theorem c2_counterexample :
    (searchUpdate 100 ⟨110, 50, 120, 0, 10, 1, 0, 5⟩).J = 5 / 2
    ∧ ¬((searchUpdate 100 ⟨110, 50, 120, 0, 10, 1, 0, 5⟩).J =
        0.5 * (⟨110, 50, 120, 0, 10, 1, 0, 5⟩ : SearchState).J) := by
  constructor
  · simp only [searchUpdate]
    norm_num
  · simp only [searchUpdate]
    norm_num

/-- Claim C2 (amended): before a bracket (prediction ≤ target) the trial
length steps up by the fixed increment `J` after recording the bracket
candidate `(L3, W2)`; on a bracket (prediction above target with a usable
denominator) the next length is the secant interpolation between
`(L3, W2)` and `(L1, W1)` and the step is quartered (`J := 0.25·J`); on the
iteration after a secant step (`Y ≠ Z+1`) the length retreats by half the
current step. -/
theorem c2_bracket_secant_update :
    (∀ (W : ℝ) (s : SearchState), s.Y = s.Z + 1 → ¬(s.W1 ≤ W) →
      s.W1 - s.W2 ≠ 0 →
      (searchUpdate W s).L1 =
        s.L3 + (W - s.W2) * (s.L1 - s.L3) / (s.W1 - s.W2)
      ∧ (searchUpdate W s).J = 0.25 * s.J
      ∧ (searchUpdate W s).Y = s.Y + 1 ∧ (searchUpdate W s).Z = s.Z + 2)
    ∧ (∀ (W : ℝ) (s : SearchState), s.Y = s.Z + 1 → s.W1 ≤ W →
      (searchUpdate W s).L1 = s.L1 + s.J ∧ (searchUpdate W s).L3 = s.L1
      ∧ (searchUpdate W s).W2 = s.W1 ∧ (searchUpdate W s).J = s.J)
    ∧ (∀ (W : ℝ) (s : SearchState), s.Y ≠ s.Z + 1 →
      (searchUpdate W s).L1 = s.L1 - 0.5 * s.J ∧ (searchUpdate W s).J = s.J
      ∧ (searchUpdate W s).Y = s.Y + 1) := by
  refine ⟨?_, ?_, ?_⟩
  · intro W s hY hW hD
    simp [searchUpdate, if_neg (not_not_intro hY), if_neg hW, if_neg hD]
  · intro W s hY hW
    simp [searchUpdate, if_neg (not_not_intro hY), if_pos hW]
  · intro W s hY
    simp [searchUpdate, if_pos hY]

/-- Witness for C2 at a concrete bracketed state (`J = 8`). -/
theorem c2_bracket_secant_update_witness :
    (searchUpdate 100 ⟨110, 50, 120, 0, 8, 1, 0, 5⟩).L1 =
      50 + (100 - 0) * (110 - 50) / (120 - 0)
    ∧ (searchUpdate 100 ⟨110, 50, 120, 0, 8, 1, 0, 5⟩).J = 0.25 * 8
    ∧ (searchUpdate 100 ⟨110, 50, 120, 0, 8, 1, 0, 5⟩).Y = 1 + 1
    ∧ (searchUpdate 100 ⟨110, 50, 120, 0, 8, 1, 0, 5⟩).Z = 0 + 2 :=
  c2_bracket_secant_update.1 100 ⟨110, 50, 120, 0, 8, 1, 0, 5⟩
    (by norm_num) (by norm_num) (by norm_num)

/-- Helper: `_power` never changes the hull geometry fields. -/
theorem applyPower_fst_D (st : VolState) : (applyPower st).1.D = st.D := by
  simp only [applyPower]
  split <;> rfl

/-- Helper: `_mass` never changes the depth field. -/
theorem applyMass_D (st : VolState) : (applyMass st).D = st.D := rfl

/-- Claim C9 counterexample: `_check_data` in fixed-dimension mode accepts
draught 12 with depth 10 — it never compares draught with depth. -/
theorem c9_counterexample :
    checkDataShipDims 100 20 10 12 0.8 = true ∧ ¬((12 : ℝ) < 10) := by
  constructor
  · simp only [checkDataShipDims]
    norm_num
  · norm_num

/-- Claim C9 (amended): fixed-dimension validation enforces positivity of
all five geometry inputs and `CB ≤ 1` (so `CB ∈ (0,1]` at solve time), but
draught < depth is not checked; the volume-expansion step always caps the
re-derived draught at `0.9·depth`, so there draught < depth holds whenever
depth is positive. -/
theorem c9_validation_and_draught_cap :
    (∀ L1 B D T C : ℝ, checkDataShipDims L1 B D T C = true →
      0 < C ∧ C ≤ 1 ∧ 0 < L1 ∧ 0 < B ∧ 0 < D ∧ 0 < T)
    ∧ (∀ st : VolState,
      (volStep st).st.T ≤ 0.9 * (volStep st).st.D
      ∧ (0 < (volStep st).st.D → (volStep st).st.T < (volStep st).st.D)) := by
  constructor
  · intro L1 B D T C h
    simp only [checkDataShipDims] at h
    by_cases h1 : L1 ≤ 0 ∨ B ≤ 0 ∨ D ≤ 0 ∨ T ≤ 0 ∨ C ≤ 0
    · rw [if_pos h1] at h; cases h
    · rw [if_neg h1] at h
      by_cases h2 : C > 1.0
      · rw [if_pos h2] at h; cases h
      · push_neg at h1 h2
        exact ⟨h1.2.2.2.2, by linarith, h1.1, h1.2.1, h1.2.2.1, h1.2.2.2.1⟩
  · intro st
    have key : ∀ x y : ℝ, (if y > x * 0.9 then x * 0.9 else y) ≤ 0.9 * x := by
      intro x y
      split
      · next h => linarith
      · next h => push_neg at h; linarith
    have hT : (volStep st).st.T ≤ 0.9 * (volStep st).st.D := by
      simp only [volStep, applyMass_D, applyPower_fst_D, apply_ite VolState.D,
        ite_self]
      exact key _ _
    refine ⟨hT, fun hD => ?_⟩
    calc (volStep st).st.T ≤ 0.9 * (volStep st).st.D := hT
      _ < (volStep st).st.D := by linarith

/-- Witness for C9: concrete valid fixed-dimension inputs, and the draught
cap at the sample expansion state. -/
theorem c9_validation_and_draught_cap_witness :
    (0 < (0.8 : ℝ) ∧ (0.8 : ℝ) ≤ 1 ∧ 0 < (100 : ℝ) ∧ 0 < (20 : ℝ)
      ∧ 0 < (10 : ℝ) ∧ 0 < (8 : ℝ))
    ∧ (volStep sampleVolState).st.T ≤ 0.9 * (volStep sampleVolState).st.D :=
  ⟨c9_validation_and_draught_cap.1 100 20 10 8 0.8
      (by simp only [checkDataShipDims]; norm_num),
   (c9_validation_and_draught_cap.2 sampleVolState).1⟩

/-- Helper: with no fuel the Newton loop returns its state unchanged. -/
theorem newtonGo_zero (Z4 Y4 X4 D61 T3 : ℝ) (mm m0 : ℕ) (P5 A9 : ℝ) :
    newtonGo Z4 Y4 X4 D61 T3 mm 0 m0 P5 A9 = (m0, P5) := by
  rw [newtonGo]
  split_ifs with h1 h2
  · rfl
  · exact absurd rfl h2
  · rfl

/-- Helper: if the Newton loop is started with enough fuel (`mm ≤ m0+fuel`)
and a consistent residual, then any exit before `mm` iterations has residual
magnitude at most `1e-5`. -/
theorem newtonGo_exit_le (Z4 Y4 X4 D61 T3 : ℝ) (mm : ℕ) :
    ∀ (fuel m0 : ℕ) (P5 : ℝ), mm ≤ m0 + fuel →
      (newtonGo Z4 Y4 X4 D61 T3 mm fuel m0 P5
          (newtonF Z4 Y4 X4 D61 T3 P5)).1 < mm →
      |newtonF Z4 Y4 X4 D61 T3
          (newtonGo Z4 Y4 X4 D61 T3 mm fuel m0 P5
            (newtonF Z4 Y4 X4 D61 T3 P5)).2| ≤ 0.00001 := by
  intro fuel
  induction fuel with
  | zero =>
    intro m0 P5 hle hlt
    rw [newtonGo_zero] at hlt
    omega
  | succ n ih =>
    intro m0 P5 hle hlt
    by_cases hg : m0 < mm ∧ ¬(|newtonF Z4 Y4 X4 D61 T3 P5| ≤ 0.00001)
    · rw [newtonGo, if_pos hg, dif_neg (Nat.succ_ne_zero n)] at hlt ⊢
      simp only [Nat.succ_sub_one] at hlt ⊢
      exact ih (m0 + 1) _ (by omega) hlt
    · rw [newtonGo, if_neg hg] at hlt ⊢
      push_neg at hg
      exact hg hlt

/-- Helper: the closed-form Newton derivative `B9` is the true derivative
of the propeller residual cubic. -/
theorem newtonF_hasDerivAt (Z4 Y4 X4 D61 T3 p : ℝ) :
    HasDerivAt (fun x => newtonF Z4 Y4 X4 D61 T3 x)
      (newtonDeriv Y4 X4 D61 p) p := by
  have h1 : HasDerivAt (fun x : ℝ => X4 + x * D61) D61 p := by
    simpa using (hasDerivAt_const p X4).add ((hasDerivAt_id p).mul_const D61)
  have h2 : HasDerivAt (fun x : ℝ => Y4 + x * (X4 + x * D61))
      ((X4 + p * D61) + p * D61) p := by
    have hm := (hasDerivAt_id p).mul h1
    simpa using (hasDerivAt_const p Y4).add hm
  have h3 : HasDerivAt (fun x : ℝ => Z4 + x * (Y4 + x * (X4 + x * D61)))
      ((Y4 + p * (X4 + p * D61)) + p * ((X4 + p * D61) + p * D61)) p := by
    have hm := (hasDerivAt_id p).mul h2
    simpa using (hasDerivAt_const p Z4).add hm
  have h4 := h3.sub_const T3
  have hd : newtonDeriv Y4 X4 D61 p =
      (Y4 + p * (X4 + p * D61)) + p * ((X4 + p * D61) + p * D61) := by
    unfold newtonDeriv; ring
  rw [hd]
  exact h4

/-- Claim C6 counterexample: at solved pitch ratio 1.5 (> 1.4) the code
multiplies `Kpwrerr` by the constant named `PITCH_LOW` (7), not `PITCH_HIGH`
(11) — the two pitch flags are applied to the opposite bound from what the
claim states. -/
theorem c6_counterexample :
    (pitchCheck 1 1.5 false false 0).Kpwrerr = PITCH_LOW
    ∧ (pitchCheck 1 1.5 false false 0).Kpwrerr ≠ PITCH_HIGH := by
  have h : (pitchCheck 1 1.5 false false 0).Kpwrerr = 1 * PITCH_LOW := by
    simp only [pitchCheck]
    rw [if_pos (by norm_num : (1.5 : ℝ) > 1.4)]
  rw [h]
  constructor
  · exact Nat.one_mul _
  · decide

/-- Claim C6 (amended): the pitch root-finder is a Newton-Raphson iteration
with the closed-form derivative `B9`, run until `|A9| ≤ 1e-5` or `maxit`
iterations; exhausting `maxit` makes `_power` fail with the distinct
`NOT_CONVERGE` code; after convergence, `Kpwrerr` is multiplied by the flag
named `PITCH_LOW` (7) exactly when the solved pitch ratio exceeds 1.4 and by
`PITCH_HIGH` (11) exactly when it is below 0.5 (the flag names are swapped
relative to the bounds), each overridable by the ignore-pitch flag outside
fixed-dimension mode, while fixed-dimension mode always aborts. -/
theorem c6_newton_and_pitch_flags :
    (∀ Z4 Y4 X4 D61 T3 p : ℝ,
      HasDerivAt (fun x => newtonF Z4 Y4 X4 D61 T3 x)
        (newtonDeriv Y4 X4 D61 p) p)
    ∧ (∀ (Z4 Y4 X4 D61 T3 : ℝ) (mm fuel m0 : ℕ) (P5 : ℝ),
        mm ≤ m0 + fuel →
        (newtonGo Z4 Y4 X4 D61 T3 mm fuel m0 P5
            (newtonF Z4 Y4 X4 D61 T3 P5)).1 < mm →
        |newtonF Z4 Y4 X4 D61 T3
            (newtonGo Z4 Y4 X4 D61 T3 mm fuel m0 P5
              (newtonF Z4 Y4 X4 D61 T3 P5)).2| ≤ 0.00001)
    ∧ (∀ s : PowerInput,
        (speedCheck s.V s.L1 s.ignspd s.dbgmd s.mCargo).abort = false →
        s.maxit ≤ (power_newton s).1 →
        (powerRun s).ok = false ∧ (powerRun s).Kpwrerr = NOT_CONVERGE)
    ∧ (∀ (k : ℕ) (P5 : ℝ) (ip dm : Bool) (mc : ℕ), 0 < k →
        ((pitchCheck k P5 ip dm mc).Kpwrerr = k * PITCH_LOW ↔ P5 > 1.4)
        ∧ ((pitchCheck k P5 ip dm mc).Kpwrerr = k * PITCH_HIGH ↔ P5 < 0.5))
    ∧ (∀ (k : ℕ) (P5 : ℝ) (dm : Bool) (mc : ℕ), mc ≠ 1 →
        (pitchCheck k P5 true dm mc).abort = false)
    ∧ (∀ (k : ℕ) (P5 : ℝ) (ip dm : Bool), (P5 > 1.4 ∨ P5 < 0.5) →
        (pitchCheck k P5 ip dm 1).abort = true) := by
  refine ⟨newtonF_hasDerivAt, newtonGo_exit_le, ?_, ?_, ?_, ?_⟩
  · intro s hs hn
    simp only [powerRun, hs]
    rw [if_pos hn]
    exact ⟨rfl, rfl⟩
  · intro k P5 ip dm mc hk
    simp only [pitchCheck, PITCH_LOW, PITCH_HIGH]
    split_ifs with h1 h2
    · dsimp only
      refine ⟨by simp [h1], ?_⟩
      constructor
      · intro h; exact absurd h (by omega)
      · intro h; linarith
    · dsimp only
      refine ⟨?_, by simp [h2]⟩
      constructor
      · intro h; exact absurd h (by omega)
      · intro h; exact absurd h h1
    · dsimp only
      constructor
      · constructor
        · intro h; exact absurd h (by omega)
        · intro h; exact absurd h h1
      · constructor
        · intro h; exact absurd h (by omega)
        · intro h; exact absurd h h2
  · intro k P5 dm mc hm
    simp only [pitchCheck]
    split_ifs <;> simp [hm]
  · intro k P5 ip dm hv
    simp only [pitchCheck]
    rcases hv with hv | hv
    · rw [if_pos hv]
      simp
    · rw [if_neg (by linarith), if_pos hv]
      simp

/-- Witness for C6: each component instantiated at concrete inputs
(`maxit = 0` exhausts the Newton budget immediately). -/
theorem c6_newton_and_pitch_flags_witness :
    HasDerivAt (fun x => newtonF 1 2 3 4 5 x) (newtonDeriv 2 3 4 6) 6
    ∧ ((newtonGo 1 2 3 4 5 1 1 0 0.07 (newtonF 1 2 3 4 5 0.07)).1 < 1 →
        |newtonF 1 2 3 4 5
          (newtonGo 1 2 3 4 5 1 1 0 0.07 (newtonF 1 2 3 4 5 0.07)).2| ≤ 0.00001)
    ∧ ((powerRun ⟨200, 32, 12, 0.8, 63000, 15, 120, 120, 0.6, 0, 1,
        true, false, false, 0⟩).ok = false
      ∧ (powerRun ⟨200, 32, 12, 0.8, 63000, 15, 120, 120, 0.6, 0, 1,
        true, false, false, 0⟩).Kpwrerr = NOT_CONVERGE)
    ∧ ((pitchCheck 3 1.5 false false 0).Kpwrerr = 3 * PITCH_LOW ↔ (1.5 : ℝ) > 1.4)
    ∧ (pitchCheck 3 0.4 true false 0).abort = false
    ∧ (pitchCheck 3 0.4 false false 1).abort = true := by
  refine ⟨c6_newton_and_pitch_flags.1 1 2 3 4 5 6,
    c6_newton_and_pitch_flags.2.1 1 2 3 4 5 1 1 0 0.07 (by omega),
    c6_newton_and_pitch_flags.2.2.1 _ ?_ (Nat.zero_le _),
    (c6_newton_and_pitch_flags.2.2.2.1 3 1.5 false false 0 (by omega)).1,
    c6_newton_and_pitch_flags.2.2.2.2.1 3 0.4 false 0 (by omega),
    c6_newton_and_pitch_flags.2.2.2.2.2 3 0.4 false false
      (Or.inr (by norm_num))⟩
  simp only [speedCheck]
  split_ifs <;> decide

/-- Helper: further `_power` geometry-preservation projections. -/
theorem applyPower_fst_L1 (st : VolState) : (applyPower st).1.L1 = st.L1 := by
  simp only [applyPower]
  split <;> rfl

theorem applyPower_fst_B (st : VolState) : (applyPower st).1.B = st.B := by
  simp only [applyPower]
  split <;> rfl

theorem applyPower_fst_M (st : VolState) : (applyPower st).1.M = st.M := by
  simp only [applyPower]
  split <;> rfl

theorem applyMass_L1 (st : VolState) : (applyMass st).L1 = st.L1 := rfl

theorem applyMass_B (st : VolState) : (applyMass st).B = st.B := rfl

theorem applyMass_M (st : VolState) : (applyMass st).M = st.M := rfl

/-- Helper: required ≤ available forces the reported volume ratio ≤ 1. -/
theorem volumeRatio_le_one (st : VolState)
    (h : volumeReq st ≤ volumeAvail st) : volumeRatio st ≤ 1.0 := by
  have key : ∀ R A : ℝ, R ≤ A → R / (if A > 0 then A else 1.0) ≤ 1.0 := by
    intro R A hRA
    split
    · next ha =>
      have h1 : R / A ≤ 1 := (div_le_one ha).mpr hRA
      linarith
    · next ha =>
      push_neg at ha
      have hR : R ≤ 0 := le_trans hRA ha
      calc R / 1.0 = R := by norm_num
        _ ≤ 0 := hR
        _ ≤ 1.0 := by norm_num
  have hshape : volumeRatio st =
      volumeReq st / (if volumeAvail st > 0 then volumeAvail st else 1.0) := rfl
  rw [hshape]
  exact key _ _ h

/-- Helper: the expansion loop executes at most `steps + fuel` iterations. -/
theorem volLoop_steps_le : ∀ (fuel : ℕ) (st : VolState) (steps : ℕ),
    (volLoop fuel st steps).2.2 ≤ steps + fuel := by
  intro fuel
  induction fuel with
  | zero =>
    intro st steps
    rw [volLoop]
    simp
  | succ n ih =>
    intro st steps
    rw [volLoop]
    rw [dif_neg (Nat.succ_ne_zero n)]
    dsimp only
    split
    · simp only [Nat.succ_sub_one]
      omega
    · simp only [Nat.succ_sub_one]
      have := ih (volStep st).st (steps + 1)
      omega

/-- Claim C8: `_solve_volume_limit` is a no-op returning success whenever
required volume ≤ available volume (or the limit is disabled); otherwise it
runs at most 50 expansion steps, each scaling length and depth by 2 % with
breadth from the L/B ratio when constrained (else also 2 %), and re-derives
the draught to float the required displacement, capped at 0.9·depth; the
call site discards the Boolean, so a cap-out is a warning and the
calculation proceeds with the expanded state. -/
theorem c8_volume_expansion :
    (∀ st : VolState, volumeReq st ≤ volumeAvail st →
      solveVolumeLimit st = (st, true))
    ∧ (∀ st : VolState, st.VolumeLimit = false →
      solveVolumeLimit st = (st, true))
    ∧ (∀ st : VolState, (volLoop 50 st 0).2.2 ≤ 50)
    ∧ (∀ st : VolState, 0 < st.L1 →
        (volStep st).st.L1 = st.L1 * 1.02
        ∧ (st.Lbratio = true →
            (volStep st).st.B = st.L1 * 1.02 / st.LbratioV)
        ∧ (st.Lbratio = false → (volStep st).st.B = st.B * 1.02)
        ∧ (volStep st).st.D = st.D * 1.02)
    ∧ (∀ st : VolState,
        (volStep st).st.T =
          (volStep st).st.M /
            ((volStep st).st.L1 * (volStep st).st.B *
              (if st.C > 0 then st.C else 0.8) * 1.025)
        ∨ (volStep st).st.T = (volStep st).st.D * 0.9)
    ∧ (∀ st : VolState, onCalculateVolumePhase st = (solveVolumeLimit st).1) := by
  refine ⟨?_, ?_, ?_, ?_, ?_, fun _ => rfl⟩
  · intro st h
    unfold solveVolumeLimit
    by_cases hv : st.VolumeLimit = false
    · rw [if_pos hv]
    · rw [if_neg hv, if_pos (volumeRatio_le_one st h)]
  · intro st hv
    unfold solveVolumeLimit
    rw [if_pos hv]
  · intro st
    have := volLoop_steps_le 50 st 0
    omega
  · intro st h
    have hp : st.L1 * 1.02 > 0 := by nlinarith
    refine ⟨?_, ?_, ?_, ?_⟩
    · simp only [volStep, applyMass_L1, applyPower_fst_L1,
        apply_ite VolState.L1, ite_self]
    · intro hb
      simp only [volStep, applyMass_B, applyPower_fst_B,
        apply_ite VolState.B, ite_self, if_pos hp, hb]
      simp
    · intro hb
      simp only [volStep, applyMass_B, applyPower_fst_B,
        apply_ite VolState.B, ite_self, if_pos hp, hb]
      simp
    · simp only [volStep, applyMass_D, applyPower_fst_D,
        apply_ite VolState.D, ite_self, if_pos hp]
  · intro st
    have key : ∀ M L B C D : ℝ,
        (if M / (L * B * C * 1.025) > D * 0.9 then D * 0.9
         else M / (L * B * C * 1.025)) = M / (L * B * C * 1.025)
        ∨ (if M / (L * B * C * 1.025) > D * 0.9 then D * 0.9
           else M / (L * B * C * 1.025)) = D * 0.9 := by
      intro M L B C D
      split
      · exact Or.inr rfl
      · exact Or.inl rfl
    simp only [volStep, applyMass_L1, applyMass_B, applyMass_D, applyMass_M,
      applyPower_fst_L1, applyPower_fst_B, applyPower_fst_D, applyPower_fst_M,
      apply_ite VolState.L1, apply_ite VolState.B, apply_ite VolState.D,
      apply_ite VolState.M, ite_self]
    exact key _ _ _ _ _

/-- Witness for C8: at the sample tanker state the required volume fits the
available volume, so the step is a no-op; the loop bound and per-step
geometry are instantiated at the same state. -/
theorem c8_volume_expansion_witness :
    solveVolumeLimit sampleVolState = (sampleVolState, true)
    ∧ (volLoop 50 sampleVolState 0).2.2 ≤ 50
    ∧ (volStep sampleVolState).st.L1 = sampleVolState.L1 * 1.02 := by
  have hreq : volumeReq sampleVolState ≤ volumeAvail sampleVolState := by
    have hneq : ¬(("Deadweight" : String) = "Volume") := by decide
    simp only [volumeReq, volumeAvail, volumeStatus, sampleVolState]
    norm_num [shipGet_tanker, ship_Tanker, fuelGet_directDiesel,
      fuel_DirectDiesel, if_neg hneq]
  exact ⟨c8_volume_expansion.1 sampleVolState hreq,
    c8_volume_expansion.2.2.1 sampleVolState,
    (c8_volume_expansion.2.2.2.1 sampleVolState (by norm_num [sampleVolState])).1⟩
